import Mathlib

/-!
Shallow embedding of `src/consumers/project_consumer_montoya.py`, a
single-threaded consumer that tails a newline-delimited JSON file and
keeps a running count of messages per author.

Modelling conventions:
* Python values decoded by `json.loads` are modelled by the inductive
  `Json` (numbers as `Int`; no claim here depends on numeric values, only
  on the shape of the decoded value).  Python key-equality quirks such as
  `True == 1` are not modelled: distinct `Json` constructors are distinct
  keys, which is faithful for every input appearing in the claims.
* `json.loads` itself is Python stdlib, external to this repository; it is
  abstracted as a value of type `Option Json` (`none` when `json.loads`
  raises `json.JSONDecodeError`) or, at loop level, as an explicit
  function parameter `loads`.
* The module-level mutable state (`author_counts`, a `defaultdict(int)`
  whose keys appear in insertion order, and `total_messages`) is the
  structure `AggState`; `author_counts` is an insertion-ordered
  association list with unique keys, exactly the Python dict.
* Exceptions are modelled explicitly: the body of the `try` block in
  `process_message` returns the state reached so far together with the
  exception raised, and the `except` clauses are modelled by
  `caughtByHandlers`.
* The file tail is modelled by the file content (a `List Char`) and the
  read cursor (an offset `Nat`); `readline` is Python's
  `file.readline()`, which returns everything up to and including the
  first line terminator after the cursor, or, when no terminator follows,
  everything up to end of file.
-/

namespace Buzzline

mutual

/-- Decoded JSON values, the possible results of `json.loads`. -/
inductive Json where
  | null
  | bool (b : Bool)
  | num (n : Int)
  | str (s : String)
  | arr (elems : JsonList)
  | obj (fields : JsonFields)
deriving DecidableEq

/-- Elements of a JSON array. -/
inductive JsonList where
  | nil
  | cons (head : Json) (tail : JsonList)
deriving DecidableEq

/-- Key/value bindings of a JSON object, in textual order.  `json.loads`
builds a Python dict from them left to right, a later duplicate key
overwriting an earlier one. -/
inductive JsonFields where
  | nil
  | cons (key : String) (value : Json) (tail : JsonFields)
deriving DecidableEq

end

/-- Python `dict.get k` on the dict `json.loads` built from these fields:
the value of the last binding of `k` (later duplicates overwrite). -/
def JsonFields.dictGet : JsonFields → String → Option Json
  | .nil, _ => none
  | .cons k' v rest, k =>
      match rest.dictGet k with
      | some r => some r
      | none => if k' = k then some v else none

/-- Whether a Python value of this JSON shape is hashable, i.e. usable as a
dict key: lists and dicts are not, everything else is. -/
def hashable : Json → Bool
  | .arr _ => false
  | .obj _ => false
  | _ => true

/-- Python `isinstance(x, dict)` on a decoded JSON value. -/
def isDict : Json → Bool
  | .obj _ => true
  | _ => false

/-- The module-level aggregate: `author_counts` (insertion-ordered dict
from author value to count, defaulting to 0) and `total_messages`. -/
structure AggState where
  author_counts : List (Json × Nat)
  total_messages : Nat
deriving DecidableEq

/-- The state at process start: empty `defaultdict(int)` and
`total_messages = 0`. -/
def initState : AggState := ⟨[], 0⟩

/-- Lookup in the counts dict; 0 for an unseen key (`defaultdict(int)`). -/
def getCount : List (Json × Nat) → Json → Nat
  | [], _ => 0
  | (k', n) :: rest, k => if k' = k then n else getCount rest k

/-- The statement `author_counts[author] += 1` on the dict: bump an
existing key in place, or append a new key at the end (Python dict
insertion order). -/
def incr : List (Json × Nat) → Json → List (Json × Nat)
  | [], k => [(k, 1)]
  | (k', n) :: rest, k =>
      if k' = k then (k', n + 1) :: rest else (k', n) :: incr rest k

/-- The value `sum(author_counts.values())`. -/
def sumValues (c : List (Json × Nat)) : Nat := (c.map Prod.snd).sum

/-- Python exceptions relevant to `process_message`:
`json.JSONDecodeError` from `json.loads`, `TypeError` from indexing the
dict with an unhashable key, any other `Exception` subclass (e.g. raised
by matplotlib inside `update_chart`), and `KeyboardInterrupt`, which is a
`BaseException` but not an `Exception`. -/
inductive PyExn where
  | jsonDecodeError
  | typeError
  | otherException
  | keyboardInterrupt
deriving DecidableEq

/-- Whether the exception class is a subclass of Python `Exception`
(everything here except `KeyboardInterrupt`, which only subclasses
`BaseException`). -/
def isExceptionSubclass : PyExn → Bool
  | .keyboardInterrupt => false
  | _ => true

/-- The `except` clauses of `process_message`:
`except json.JSONDecodeError` followed by `except Exception`. -/
def caughtByHandlers : PyExn → Bool
  | .jsonDecodeError => true
  | e => isExceptionSubclass e

/-- Outcome of running the `try` block of `process_message`: the state
reached when the block ends or the exception escapes it, the exception
raised (if any), and whether `logger.error` was called inside the block. -/
structure TryResult where
  state : AggState
  raised : Option PyExn
  loggedError : Bool
deriving DecidableEq

/-- The `try` block of `process_message`, line by line:
`json.loads` raises on invalid JSON (here `parsed = none`); the
`isinstance(message_dict, dict)` guard logs an error and returns; then
`message_dict.get("author", "Unknown")`; then `author_counts[author] += 1`,
which raises `TypeError` when `author` is unhashable, before any state
change; then `total_messages += 1`; then `update_chart()`, whose possible
exception (matplotlib is external) is the parameter `chartRaises` and is
raised after both increments have happened. -/
def process_message_try (s : AggState) (parsed : Option Json)
    (chartRaises : Option PyExn) : TryResult :=
  match parsed with
  | none => ⟨s, some .jsonDecodeError, false⟩
  | some v =>
    match v with
    | .obj fields =>
        let author := (fields.dictGet "author").getD (.str "Unknown")
        if hashable author then
          let s' : AggState :=
            ⟨incr s.author_counts author, s.total_messages + 1⟩
          ⟨s', chartRaises, false⟩
        else
          ⟨s, some .typeError, false⟩
    | _ => ⟨s, none, true⟩

/-- The function `process_message` with the handlers applied blindly: the
state after the call and whether `logger.error` was called.  Every handled
exception is logged at error level and swallowed.  (Whether each raised
exception really is handled is exactly what `process_message_run`
tracks.) -/
def process_message (s : AggState) (parsed : Option Json)
    (chartRaises : Option PyExn) : AggState × Bool :=
  let r := process_message_try s parsed chartRaises
  match r.raised with
  | none => (r.state, r.loggedError)
  | some _ => (r.state, true)

/-- Honest semantics of calling `process_message`: if the `try` block
raises an exception that no `except` clause catches, the exception
propagates to the caller (`.error`); otherwise the call returns normally
with the handled result. -/
def process_message_run (s : AggState) (parsed : Option Json)
    (chartRaises : Option PyExn) : Except PyExn (AggState × Bool) :=
  let r := process_message_try s parsed chartRaises
  match r.raised with
  | none => .ok (r.state, r.loggedError)
  | some e =>
      if caughtByHandlers e then .ok (r.state, true) else .error e

/-- Characters of one `readline` result: everything up to and including
the first line terminator, or everything when no terminator occurs.  This
is how Python's `file.readline()` behaves at end of file: a trailing
sequence of characters not yet terminated is returned as-is. -/
def takeLine : List Char → List Char
  | [] => []
  | c :: cs => if c = '\n' then ['\n'] else c :: takeLine cs

/-- Python `file.readline()` on a file whose current content is `content`
with the read position at offset `cursor`: returns the line read and the
new read position.  The position always advances by exactly the length of
the returned string. -/
def readline (content : List Char) (cursor : Nat) : List Char × Nat :=
  let line := takeLine (content.drop cursor)
  (line, cursor + line.length)

/-- Python `str.strip()`: remove leading and trailing whitespace. -/
def pyStrip (l : List Char) : List Char :=
  ((l.dropWhile Char.isWhitespace).reverse.dropWhile Char.isWhitespace).reverse

/-- Observable outcome of one iteration of the `while True` loop in
`main`: the aggregate state and read position afterwards, whether the
iteration took the `time.sleep(0.5)` branch, and whether `logger.error`
was called. -/
structure StepResult where
  state : AggState
  cursor : Nat
  slept : Bool
  errorLogged : Bool
deriving DecidableEq

/-- One iteration of the `while True` loop in `main`:
`line = file.readline()`; if `line.strip()` is truthy (non-empty) the
line is handed to `process_message`, otherwise the loop sleeps and
retries.  `loads` abstracts `json.loads` applied to the line
(`none` meaning it raises `json.JSONDecodeError`), and `chartRaises`
abstracts whether `update_chart()` raises on this iteration. -/
def loop_step (loads : List Char → Option Json) (chartRaises : Option PyExn)
    (s : AggState) (content : List Char) (cursor : Nat) : StepResult :=
  let r := readline content cursor
  if (pyStrip r.1).isEmpty then
    ⟨s, r.2, true, false⟩
  else
    let p := process_message s (loads r.1) chartRaises
    ⟨p.1, r.2, false, p.2⟩

/-- How the `while True` loop in `main` ends. -/
inductive LoopEnd where
  | interrupt
  | ioError
deriving DecidableEq

/-- Process exit code of `main`, from its control flow: when the data
file does not exist, `sys.exit(1)` runs; otherwise the loop runs until a
`KeyboardInterrupt` (caught by `except KeyboardInterrupt`) or an I/O
failure (an `OSError`, caught by `except Exception`); both handlers only
log, the `finally` block runs, and `main` returns normally, so the
process exits with code 0. -/
def mainExitCode (dataFileExists : Bool) (ending : LoopEnd) : Nat :=
  if dataFileExists then
    match ending with
    | .interrupt => 0
    | .ioError => 0
  else 1

/-- Folding a whole history of processed lines into the aggregate, in
file order: each element is the `json.loads` outcome for one line handed
to `process_message`, paired with the behaviour of `update_chart` on that
call.  Only the resulting state is observed. -/
def run (msgs : List (Option Json × Option PyExn)) (s : AggState) : AggState :=
  msgs.foldl (fun st m => (process_message st m.1 m.2).1) s

/-- The one state-relevant datum of a processed line: the dict key whose
count the line increments (`none` when the line is rejected or raises
before any state change). -/
def recordEffect (parsed : Option Json) : Option Json :=
  match parsed with
  | some (.obj fields) =>
      let author := (fields.dictGet "author").getD (.str "Unknown")
      if hashable author then some author else none
  | _ => none

theorem sumValues_incr (c : List (Json × Nat)) (k : Json) :
    sumValues (incr c k) = sumValues c + 1 := by
  induction c with
  | nil => simp [incr, sumValues]
  | cons hd tl ih =>
      obtain ⟨k', n⟩ := hd
      by_cases h : k' = k <;> simp [incr, h, sumValues] at ih ⊢ <;> omega

theorem getCount_incr (c : List (Json × Nat)) (a k : Json) :
    getCount (incr c a) k = getCount c k + if a = k then 1 else 0 := by
  induction c with
  | nil =>
      by_cases h : a = k <;> simp [incr, getCount, h]
  | cons hd tl ih =>
      obtain ⟨k', n⟩ := hd
      by_cases h1 : k' = a
      · subst h1
        by_cases h2 : k' = k <;> simp [incr, getCount, h2]
      · by_cases h2 : k' = k
        · subst h2
          simp [incr, getCount, h1, fun h : k' = a => h1 h]
          intro h
          exact absurd h.symm h1
        · simp [incr, getCount, h1, h2, ih]

theorem process_message_state (s : AggState) (p : Option Json)
    (c : Option PyExn) :
    (process_message s p c).1 =
      match recordEffect p with
      | some a => ⟨incr s.author_counts a, s.total_messages + 1⟩
      | none => s := by
  match p with
  | none => rfl
  | some v =>
    match v with
    | .null | .bool _ | .num _ | .str _ | .arr _ => rfl
    | .obj fields =>
        by_cases h : hashable ((fields.dictGet "author").getD (.str "Unknown"))
        · simp [process_message, process_message_try, recordEffect, h]
          cases c <;> rfl
        · simp [process_message, process_message_try, recordEffect, h]

/-- C1. The invariant `total_messages == sum(author_counts.values())`
holds in every reachable state: after folding any history of processed
lines into the empty starting state, the total equals the sum of the
per-author counts. -/
theorem C1_total_eq_sum_counts (msgs : List (Option Json × Option PyExn)) :
    (run msgs initState).total_messages =
      sumValues (run msgs initState).author_counts := by
  suffices h : ∀ s : AggState,
      s.total_messages = sumValues s.author_counts →
      (run msgs s).total_messages = sumValues (run msgs s).author_counts from
    h initState rfl
  induction msgs with
  | nil => intro s hs; simpa [run] using hs
  | cons m rest ih =>
      intro s hs
      have hstep :
          (process_message s m.1 m.2).1.total_messages =
            sumValues (process_message s m.1 m.2).1.author_counts := by
        rw [process_message_state]
        match recordEffect m.1 with
        | some a => simpa [sumValues_incr] using hs
        | none => exact hs
      simpa [run] using ih (process_message s m.1 m.2).1 hstep

theorem process_message_getCount (s : AggState) (p : Option Json)
    (c : Option PyExn) (k : Json) :
    getCount (process_message s p c).1.author_counts k =
      getCount s.author_counts k +
        if recordEffect p = some k then 1 else 0 := by
  rw [process_message_state]
  cases he : recordEffect p with
  | none => simp
  | some a => simp [getCount_incr]

theorem process_message_total (s : AggState) (p : Option Json)
    (c : Option PyExn) :
    (process_message s p c).1.total_messages =
      s.total_messages + if (recordEffect p).isSome then 1 else 0 := by
  rw [process_message_state]
  cases he : recordEffect p <;> simp

theorem run_getCount (msgs : List (Option Json × Option PyExn))
    (s : AggState) (k : Json) :
    getCount (run msgs s).author_counts k =
      getCount s.author_counts k +
        msgs.countP (fun m => recordEffect m.1 == some k) := by
  induction msgs generalizing s with
  | nil => simp [run]
  | cons m rest ih =>
      have hstep : run (m :: rest) s = run rest (process_message s m.1 m.2).1 := rfl
      rw [hstep, ih, process_message_getCount, List.countP_cons]
      by_cases h : recordEffect m.1 = some k <;> simp [h]
      omega

theorem run_total (msgs : List (Option Json × Option PyExn)) (s : AggState) :
    (run msgs s).total_messages =
      s.total_messages + msgs.countP (fun m => (recordEffect m.1).isSome) := by
  induction msgs generalizing s with
  | nil => simp [run]
  | cons m rest ih =>
      have hstep : run (m :: rest) s = run rest (process_message s m.1 m.2).1 := rfl
      rw [hstep, ih, process_message_total, List.countP_cons]
      by_cases h : (recordEffect m.1).isSome <;> simp [h]
      omega

/-- C6. The fold is commutative: two histories that are permutations of
each other produce the same aggregate — equal counts at every key (which
is Python dict equality, insertion order being invisible to `==`) and
equal totals.  This covers in particular any permutation of a sequence of
valid records. -/
theorem C6_fold_commutative (msgs1 msgs2 : List (Option Json × Option PyExn))
    (hperm : msgs1.Perm msgs2) (s : AggState) :
    (∀ k : Json, getCount (run msgs1 s).author_counts k =
        getCount (run msgs2 s).author_counts k) ∧
    (run msgs1 s).total_messages = (run msgs2 s).total_messages := by
  constructor
  · intro k
    rw [run_getCount, run_getCount,
      hperm.countP_eq (fun m => recordEffect m.1 == some k)]
  · rw [run_total, run_total,
      hperm.countP_eq (fun m => (recordEffect m.1).isSome)]

/-- Witness for C6 at a concrete permutation: the records
`{"author": "alice"}` then `{"author": "bob"}` in the two orders yield
the same counts for `"alice"`, `"bob"` and `"Unknown"`, and the same
total. -/
theorem C6_fold_commutative_witness :
    (∀ k : Json,
      getCount (run [(some (.obj (.cons "author" (.str "alice") .nil)), none),
                     (some (.obj (.cons "author" (.str "bob") .nil)), none)]
          initState).author_counts k =
        getCount (run [(some (.obj (.cons "author" (.str "bob") .nil)), none),
                       (some (.obj (.cons "author" (.str "alice") .nil)), none)]
          initState).author_counts k) ∧
    (run [(some (.obj (.cons "author" (.str "alice") .nil)), none),
          (some (.obj (.cons "author" (.str "bob") .nil)), none)]
        initState).total_messages =
      (run [(some (.obj (.cons "author" (.str "bob") .nil)), none),
            (some (.obj (.cons "author" (.str "alice") .nil)), none)]
          initState).total_messages :=
  C6_fold_commutative _ _ (List.Perm.swap _ _ _) initState

/-- C7. A valid object record with no `author` field increments the
`"Unknown"` category by exactly 1 and the total by exactly 1, and leaves
every other category unchanged. -/
theorem C7_missing_author_counts_unknown (s : AggState) (fields : JsonFields)
    (c : Option PyExn) (h : fields.dictGet "author" = none) :
    getCount (process_message s (some (.obj fields)) c).1.author_counts
        (.str "Unknown") =
      getCount s.author_counts (.str "Unknown") + 1 ∧
    (process_message s (some (.obj fields)) c).1.total_messages =
      s.total_messages + 1 ∧
    ∀ k : Json, k ≠ .str "Unknown" →
      getCount (process_message s (some (.obj fields)) c).1.author_counts k =
        getCount s.author_counts k := by
  have he : recordEffect (some (.obj fields)) = some (.str "Unknown") := by
    simp [recordEffect, h, hashable]
  refine ⟨?_, ?_, ?_⟩
  · rw [process_message_getCount, he]; simp
  · rw [process_message_total, he]; simp
  · intro k hk
    rw [process_message_getCount, he]
    simp
    exact fun hh => hk hh.symm

/-- Witness for C7 on the record `{"x": 1}`: `"Unknown"` goes from 0
to 1, the total goes from 0 to 1, `"alice"` stays at 0. -/
theorem C7_missing_author_counts_unknown_witness :
    JsonFields.dictGet (.cons "x" (.num 1) .nil) "author" = none ∧
    getCount (process_message initState
        (some (.obj (.cons "x" (.num 1) .nil))) none).1.author_counts
        (.str "Unknown") =
      getCount initState.author_counts (.str "Unknown") + 1 ∧
    (process_message initState
        (some (.obj (.cons "x" (.num 1) .nil))) none).1.total_messages =
      initState.total_messages + 1 ∧
    getCount (process_message initState
        (some (.obj (.cons "x" (.num 1) .nil))) none).1.author_counts
        (.str "alice") =
      getCount initState.author_counts (.str "alice") :=
  ⟨by decide,
    (C7_missing_author_counts_unknown initState _ none (by decide)).1,
    (C7_missing_author_counts_unknown initState _ none (by decide)).2.1,
    (C7_missing_author_counts_unknown initState _ none (by decide)).2.2
      (.str "alice") (by decide)⟩

/-- C8. A line that parses to valid JSON which is not an object (array,
number, string, null or boolean) is rejected by the
`isinstance(message_dict, dict)` guard: the error is logged and the state
is returned unchanged. -/
theorem C8_non_object_rejected (s : AggState) (v : Json) (c : Option PyExn)
    (h : isDict v = false) :
    process_message s (some v) c = (s, true) := by
  match v with
  | .null | .bool _ | .num _ | .str _ | .arr _ => rfl
  | .obj fields => simp [isDict] at h

/-- Witness for C8 on the line `[1]` (a JSON array): state unchanged,
error logged. -/
theorem C8_non_object_rejected_witness :
    isDict (.arr (.cons (.num 1) .nil)) = false ∧
    process_message initState (some (.arr (.cons (.num 1) .nil))) none =
      (initState, true) :=
  ⟨by decide, C8_non_object_rejected initState _ none (by decide)⟩

/-- C2 (behaviour of the code at the failing input). The claim requires
that an unterminated trailing line is never returned by a poll and that,
once terminated, exactly one complete untruncated line is returned.  The
code instead uses `file.readline()`, which returns the partial content at
end of file: with file content `"abc"` (no terminator) the poll returns
`"abc"` and consumes it (the loop even hands it to `process_message`,
since it strips non-empty); after the producer completes the line to
`"abcd\n"`, the next poll returns only the remainder `"d\n"` — the
complete line `"abcd\n"` is never returned, it is delivered truncated in
two pieces. -/
theorem C2_unterminated_line_consumed :
    readline ("abc".data) 0 = ("abc".data, 3) ∧
    (loop_step (fun _ => none) none initState ("abc".data) 0).slept = false ∧
    readline ("abcd\n".data) 3 = ("d\n".data, 5) := by decide

/-- C3 (counterexample). The claim says a record whose `author` field is
present but not a string is rejected as a decode failure with no state
change.  On the record `{"author": 42}` the code instead counts it: the
state changes, the key `42` gets count 1, and no error is logged. -/
theorem C3_counterexample :
    (process_message initState
        (some (.obj (.cons "author" (.num 42) .nil))) none).1 ≠ initState ∧
    getCount (process_message initState
        (some (.obj (.cons "author" (.num 42) .nil))) none).1.author_counts
        (.num 42) = 1 ∧
    (process_message initState
        (some (.obj (.cons "author" (.num 42) .nil))) none).2 = false := by
  decide

/-- C3 (amended). A present `author` value of any JSON type is not
rejected: when it is hashable (not an array or object) it is used
directly as the category key — that key's count and the total each go up
by 1 and every other key is unchanged; `"Unknown"` is used only as the
default for an absent field. -/
theorem C3_amended_present_author_used_as_key (s : AggState)
    (fields : JsonFields) (c : Option PyExn) (v : Json)
    (hv : fields.dictGet "author" = some v) (hh : hashable v = true) :
    getCount (process_message s (some (.obj fields)) c).1.author_counts v =
      getCount s.author_counts v + 1 ∧
    (process_message s (some (.obj fields)) c).1.total_messages =
      s.total_messages + 1 ∧
    ∀ k : Json, k ≠ v →
      getCount (process_message s (some (.obj fields)) c).1.author_counts k =
        getCount s.author_counts k := by
  have he : recordEffect (some (.obj fields)) = some v := by
    simp [recordEffect, hv, hh]
  refine ⟨?_, ?_, ?_⟩
  · rw [process_message_getCount, he]; simp
  · rw [process_message_total, he]; simp
  · intro k hk
    rw [process_message_getCount, he]
    simp
    exact fun hh2 => hk hh2.symm

/-- Witness for the amended C3 on `{"author": 42}`: the key `42` goes
from 0 to 1, the total from 0 to 1, and `"Unknown"` stays at 0. -/
theorem C3_amended_present_author_used_as_key_witness :
    JsonFields.dictGet (.cons "author" (.num 42) .nil) "author" =
      some (.num 42) ∧
    hashable (.num 42) = true ∧
    getCount (process_message initState
        (some (.obj (.cons "author" (.num 42) .nil))) none).1.author_counts
        (.num 42) =
      getCount initState.author_counts (.num 42) + 1 ∧
    (process_message initState
        (some (.obj (.cons "author" (.num 42) .nil))) none).1.total_messages =
      initState.total_messages + 1 ∧
    getCount (process_message initState
        (some (.obj (.cons "author" (.num 42) .nil))) none).1.author_counts
        (.str "Unknown") =
      getCount initState.author_counts (.str "Unknown") :=
  ⟨by decide, by decide,
    (C3_amended_present_author_used_as_key initState _ none (.num 42)
      (by decide) (by decide)).1,
    (C3_amended_present_author_used_as_key initState _ none (.num 42)
      (by decide) (by decide)).2.1,
    (C3_amended_present_author_used_as_key initState _ none (.num 42)
      (by decide) (by decide)).2.2 (.str "Unknown") (by decide)⟩

/-- C4. A line whose text is non-blank but not valid JSON
(`json.loads` raises) changes nothing in the aggregate, logs the failure,
does not sleep, and the read position still advances by the whole length
of the line, so the bad line is never reprocessed. -/
theorem C4_malformed_line_skipped (loads : List Char → Option Json)
    (chartRaises : Option PyExn) (s : AggState) (content : List Char)
    (cursor : Nat)
    (hne : (pyStrip (readline content cursor).1).isEmpty = false)
    (hbad : loads (readline content cursor).1 = none) :
    loop_step loads chartRaises s content cursor =
      ⟨s, cursor + (readline content cursor).1.length, false, true⟩ := by
  have h1 : (readline content cursor).1 = takeLine (content.drop cursor) := rfl
  rw [h1] at hne hbad
  simp [loop_step, hne, hbad, process_message, process_message_try, readline]

/-- Witness for C4 on the line `"notjson\n"` with a `loads` that fails on
every line (as `json.loads` does on this one). -/
theorem C4_malformed_line_skipped_witness :
    (pyStrip (readline ("notjson\n".data) 0).1).isEmpty = false ∧
    loop_step (fun _ => none) none initState ("notjson\n".data) 0 =
      ⟨initState, 0 + (readline ("notjson\n".data) 0).1.length, false, true⟩ :=
  ⟨by decide,
    C4_malformed_line_skipped (fun _ => none) none initState
      ("notjson\n".data) 0 (by decide) rfl⟩

/-- C5 (counterexample). The claim says the exit code is non-zero when
the file becomes unreadable mid-run; in the code the resulting `OSError`
is caught by `except Exception`, which only logs, so `main` returns
normally and the process exits with code 0. -/
theorem C5_counterexample : mainExitCode true .ioError = 0 := rfl

/-- C5 (amended). The exit code is 0 on clean interrupt-driven shutdown
and non-zero (1) when the input file is missing at startup; when the file
becomes unreadable mid-run the error is caught and logged and the process
still exits with code 0. -/
theorem C5_amended_exit_codes :
    mainExitCode false .interrupt = 1 ∧ mainExitCode false .ioError = 1 ∧
    mainExitCode true .interrupt = 0 ∧ mainExitCode true .ioError = 0 := by
  decide

/-- C9. A polled line consisting only of whitespace (or the empty string
returned at end of file) is falsy after `strip()`: the iteration takes
the sleep-and-retry branch, invokes no record processing, logs no error,
and leaves the aggregate unchanged. -/
theorem C9_blank_line_sleeps (loads : List Char → Option Json)
    (chartRaises : Option PyExn) (s : AggState) (content : List Char)
    (cursor : Nat)
    (h : (pyStrip (readline content cursor).1).isEmpty = true) :
    loop_step loads chartRaises s content cursor =
      ⟨s, (readline content cursor).2, true, false⟩ := by
  simp [loop_step, h]

/-- Witness for C9 on the blank line `"  \n"`. -/
theorem C9_blank_line_sleeps_witness :
    (pyStrip (readline ("  \n".data) 0).1).isEmpty = true ∧
    loop_step (fun _ => none) none initState ("  \n".data) 0 =
      ⟨initState, (readline ("  \n".data) 0).2, true, false⟩ :=
  ⟨by decide,
    C9_blank_line_sleeps (fun _ => none) none initState ("  \n".data) 0
      (by decide)⟩

/-- C10. `process_message` never propagates an exception to its caller:
provided `update_chart` only ever raises `Exception` subclasses (true of
matplotlib errors; `KeyboardInterrupt` is an asynchronous signal, not an
error raised by decoding, folding or rendering), every exception raised
in the `try` block is caught by the two `except` clauses and the call
returns normally. -/
theorem C10_no_exception_propagates (s : AggState) (p : Option Json)
    (c : Option PyExn)
    (hc : ∀ e, c = some e → isExceptionSubclass e = true) :
    process_message_run s p c = .ok (process_message s p c) := by
  match p with
  | none => rfl
  | some .null | some (.bool _) | some (.num _) | some (.str _)
  | some (.arr _) => rfl
  | some (.obj fields) =>
      by_cases h : hashable ((fields.dictGet "author").getD (.str "Unknown"))
      · cases hcc : c with
        | none =>
            simp [process_message_run, process_message, process_message_try, h]
        | some e =>
            have he := hc e hcc
            cases e <;>
              simp_all [process_message_run, process_message,
                process_message_try, caughtByHandlers, isExceptionSubclass]
      · simp [process_message_run, process_message, process_message_try, h,
          caughtByHandlers, isExceptionSubclass]

/-- Witness for C10 on a call where `update_chart` raises a matplotlib
`Exception` after the state update: the call still returns normally. -/
theorem C10_no_exception_propagates_witness :
    (∀ e, (some PyExn.otherException : Option PyExn) = some e →
        isExceptionSubclass e = true) ∧
    process_message_run initState
        (some (.obj (.cons "author" (.str "alice") .nil)))
        (some .otherException) =
      .ok (process_message initState
        (some (.obj (.cons "author" (.str "alice") .nil)))
        (some .otherException)) :=
  ⟨fun e he => by cases he; rfl,
    C10_no_exception_propagates initState _ _ (fun e he => by cases he; rfl)⟩

end Buzzline
